import Mathlib

/-!
Shallow embedding of the event-management backend
(swetansumohanty/app-event-management) for checking its natural-language
specification.  The data model mirrors app/vo, the data-access layer mirrors
app/dao, and the service operations mirror app/service.  Datetimes are
modelled as integers (a total order with addition is all the code uses),
the relational store as lists in insertion (rowid) order, and the
SQLAlchemy query combinators offset/limit/first as drop/take/head?.
-/

namespace EventMgmt

/-- Event status enum, from app/common/enums.py.  Note the member named
CANCELLED carries the stored string value "CANCELED" (single L) in the
source. -/
inductive EventStatus where
  | SCHEDULED
  | ONGOING
  | COMPLETED
  | CANCELLED
  deriving DecidableEq, Repr

/-- Stored string value of each enum member, from app/common/enums.py
(EventStatus is a str Enum; CANCELLED = "CANCELED"). -/
def EventStatus.value : EventStatus → String
  | .SCHEDULED => "SCHEDULED"
  | .ONGOING => "ONGOING"
  | .COMPLETED => "COMPLETED"
  | .CANCELLED => "CANCELED"

/-- Row of the events table, from app/vo/event.py.  created_at/updated_at
are database-managed column defaults (excluded collaborator) and carry no
logic used by the services, so they are omitted. -/
structure Event where
  id : Nat
  name : String
  description : Option String
  start_time : Int
  end_time : Int
  location : String
  max_attendees : Nat
  status : EventStatus
  organizer_id : Nat
  deriving DecidableEq, Repr

/-- Row of the attendees table, from app/vo/attendee.py (timestamps
omitted as for Event). -/
structure Attendee where
  id : Nat
  event_id : Nat
  email : String
  first_name : String
  last_name : String
  phone_number : Option String
  check_in_status : Bool
  deriving DecidableEq, Repr

/-- The relational store: rows in insertion (rowid) order. -/
structure DB where
  events : List Event
  attendees : List Attendee
  deriving DecidableEq, Repr

/-- Uniform response envelope, from app/common/response.py:
success_response / error_response with an HTTP-like status code and a
message. -/
inductive AppResponse (α : Type) where
  | success (status_code : Nat) (message : String) (data : α)
  | error (status_code : Nat) (message : String)
  deriving DecidableEq, Repr

def AppResponse.isSuccess {α : Type} : AppResponse α → Bool
  | .success _ _ _ => true
  | .error _ _ => false

/-! ### DAO layer (app/dao) -/

namespace EventDAO

/-- EventDAO.get_by_id: first row whose id matches
(db.query(Event).filter(Event.id == event_id).first()). -/
def get_by_id (db : DB) (event_id : Nat) : Option Event :=
  (db.events.filter (fun e => e.id == event_id)).head?

/-- Modelled from the spec: BaseDAO.get (app/dao/base.py is absent from
the sources; the Persistence Gateway contract of the spec exposes a
per-entity get_by_id lookup, and the subclass method get_by_id above is
the same query).  Retrieval of one event by primary key. -/
def get (db : DB) (event_id : Nat) : Option Event :=
  get_by_id db event_id

/-- EventDAO.update_status: fetch by id; if absent return None; otherwise
set the status field, commit, and return the refreshed row. -/
def update_status (db : DB) (event_id : Nat) (status : EventStatus) :
    DB × Option Event :=
  match get_by_id db event_id with
  | none => (db, none)
  | some e =>
      let e' : Event := { e with status := status }
      ({ db with
          events := db.events.map (fun x => if x.id == event_id then e' else x) },
        some e')

/-- EventDAO.create: insert a new row (AUTO_INCREMENT primary key) and
return it.  The fresh id is one more than the largest id present. -/
def create (db : DB) (e : Event) : DB × Event :=
  let fresh := (db.events.map (fun x => x.id)).foldr max 0 + 1
  let e' : Event := { e with id := fresh }
  ({ db with events := db.events ++ [e'] }, e')

end EventDAO

namespace AttendeeDAO

/-- AttendeeDAO.get_by_id: first row whose id matches. -/
def get_by_id (db : DB) (attendee_id : Nat) : Option Attendee :=
  (db.attendees.filter (fun a => a.id == attendee_id)).head?

/-- Modelled from the spec: BaseDAO.get (app/dao/base.py is absent from
the sources; the Persistence Gateway contract of the spec exposes a
per-entity get_by_id lookup).  Retrieval of one attendee by primary
key. -/
def get (db : DB) (attendee_id : Nat) : Option Attendee :=
  get_by_id db attendee_id

/-- AttendeeDAO.get_by_event: rows of one event, with the query
defaults skip=0, limit=100 applied by offset/limit. -/
def get_by_event (db : DB) (event_id : Nat) (skip limit : Nat) :
    List Attendee :=
  (((db.attendees.filter (fun a => a.event_id == event_id)).drop skip).take limit)

/-- AttendeeDAO.get_by_email: FIRST row (in rowid order) whose email
matches, regardless of event (db.query(Attendee).filter(Attendee.email ==
email).first()). -/
def get_by_email (db : DB) (email : String) : Option Attendee :=
  (db.attendees.filter (fun a => a.email == email)).head?

/-- AttendeeDAO.check_in_attendee: fetch by id; if present set
check_in_status = True, commit, and return the refreshed row. -/
def check_in_attendee (db : DB) (attendee_id : Nat) :
    DB × Option Attendee :=
  match get_by_id db attendee_id with
  | none => (db, none)
  | some a =>
      let a' : Attendee := { a with check_in_status := true }
      ({ db with
          attendees := db.attendees.map (fun x => if x.id == attendee_id then a' else x) },
        some a')

/-- AttendeeDAO.create: insert a new row (AUTO_INCREMENT primary key)
and return it. -/
def create (db : DB) (a : Attendee) : DB × Attendee :=
  let fresh := (db.attendees.map (fun x => x.id)).foldr max 0 + 1
  let a' : Attendee := { a with id := fresh }
  ({ db with attendees := db.attendees ++ [a'] }, a')

end AttendeeDAO

/-! ### Attendee service (app/service/attendee.py) -/

/-- Registration request payload, from app/dto/attendee.py
(AttendeeCreate).  The DTO layer guarantees syntax; the service sees the
parsed fields. -/
structure AttendeeCreate where
  event_id : Nat
  email : String
  first_name : String
  last_name : String
  phone_number : Option String
  deriving DecidableEq, Repr

namespace AttendeeService

/-- AttendeeService.register_attendee, translated branch for branch:
event-existence check, duplicate check (via AttendeeDAO.get_by_email,
first email match across ALL events, compared against the requested
event id), open-for-registration check, the duplicate check repeated
verbatim as in the source, capacity check against
len(get_by_event(event_id)) with the query defaults skip=0 limit=100,
then insert. -/
def register_attendee (db : DB) (attendee_in : AttendeeCreate) :
    DB × AppResponse Attendee :=
  match EventDAO.get db attendee_in.event_id with
  | none => (db, .error 404 "Event not found")
  | some event =>
      let existing_attendee := AttendeeDAO.get_by_email db attendee_in.email
      if (existing_attendee.map (fun a => a.event_id == attendee_in.event_id)).getD false then
        (db, .error 400 "Attendee already registered for this event")
      else if event.status == .COMPLETED || event.status == .CANCELLED then
        (db, .error 400 "Event is not open for registration")
      else
        let existing_attendee2 := AttendeeDAO.get_by_email db attendee_in.email
        if (existing_attendee2.map (fun a => a.event_id == attendee_in.event_id)).getD false then
          (db, .error 400 "Attendee already registered for this event")
        else
          let current_attendees := AttendeeDAO.get_by_event db attendee_in.event_id 0 100
          if current_attendees.length ≥ event.max_attendees then
            (db, .error 400 "Event has reached maximum attendees")
          else
            let (db', attendee) := AttendeeDAO.create db
              { id := 0
                event_id := attendee_in.event_id
                email := attendee_in.email
                first_name := attendee_in.first_name
                last_name := attendee_in.last_name
                phone_number := attendee_in.phone_number
                check_in_status := false }
            (db', .success 201 "Attendee registered successfully" attendee)

/-- HTTP exception raised by AttendeeService.check_in_attendee (this one
operation raises to the transport layer instead of returning an
AppResponse). -/
structure HTTPError where
  status_code : Nat
  detail : String
  deriving DecidableEq, Repr

/-- AttendeeService.check_in_attendee: attendee lookup, event lookup,
ONGOING gate, already-checked-in gate, then the DAO flip.  On success the
source returns the refreshed record (or None when the DAO returns None,
mirrored by the Option). -/
def check_in_attendee (db : DB) (attendee_id : Nat) :
    DB × Except HTTPError (Option Attendee) :=
  match AttendeeDAO.get db attendee_id with
  | none => (db, .error ⟨404, "Attendee not found"⟩)
  | some attendee =>
      match EventDAO.get db attendee.event_id with
      | none => (db, .error ⟨404, "Event not found"⟩)
      | some event =>
          if event.status != .ONGOING then
            (db, .error ⟨400, "Event is not ongoing"⟩)
          else if attendee.check_in_status then
            (db, .error ⟨400, "Attendee already checked in"⟩)
          else
            let (db', updated) := AttendeeDAO.check_in_attendee db attendee_id
            (db', .ok updated)

/-- One iteration of the bulk check-in loop over the request emails.
lookup is the email_to_attendee dict built from the pre-loop snapshot
(membership and identity fixed there); the check_in_status attribute of
the dict value is an ORM object attribute and therefore reflects the
current committed row, modelled by re-reading the row by id (falling
back to the snapshot field for a row that is absent, which cannot happen
as rows are never deleted). -/
def bulk_step (lookup : String → Option Attendee)
    (acc : DB × List Attendee × List String) (email : String) :
    DB × List Attendee × List String :=
  let (db, checked_in, errors) := acc
  match lookup email with
  | none =>
      (db, checked_in, errors ++ ["Attendee with email " ++ email ++ " not found"])
  | some attendee =>
      let live_status :=
        ((AttendeeDAO.get_by_id db attendee.id).map (fun x => x.check_in_status)).getD
          attendee.check_in_status
      if live_status then
        (db, checked_in, errors ++ ["Attendee with email " ++ email ++ " already checked in"])
      else
        match AttendeeDAO.check_in_attendee db attendee.id with
        | (db', some updated) => (db', checked_in ++ [updated], errors)
        | (db', none) => (db', checked_in, errors)

/-- AttendeeService.bulk_check_in_attendees: event existence and ONGOING
gates, snapshot of the event attendees via get_by_event (query defaults
skip=0 limit=100), the email→attendee dict (later rows override earlier
ones on a duplicate email, as a dict comprehension does), the per-email
loop in request order, and the aggregate message. -/
def bulk_check_in_attendees (db : DB) (event_id : Nat)
    (attendee_emails : List String) : DB × AppResponse (List Attendee) :=
  match EventDAO.get db event_id with
  | none => (db, .error 404 "Event not found")
  | some event =>
      if event.status != .ONGOING then
        (db, .error 400 "Event is not ongoing")
      else
        let attendees := AttendeeDAO.get_by_event db event_id 0 100
        let lookup := fun email =>
          (attendees.filter (fun a => a.email == email)).getLast?
        let (db', checked_in, errors) :=
          attendee_emails.foldl (bulk_step lookup) (db, [], [])
        let message :=
          if errors.isEmpty then "Bulk check-in completed"
          else "Bulk check-in completed with " ++ toString errors.length ++
            " errors: " ++ String.intercalate "; " errors
        (db', .success 200 message checked_in)

end AttendeeService

/-! ### Event service (app/service/event.py) -/

/-- Event-creation payload, from app/dto/event.py (EventCreate).  The DTO
enforces only field presence and string-length bounds; it has no
validator relating start_time and end_time. -/
structure EventCreate where
  name : String
  description : Option String
  start_time : Int
  end_time : Int
  location : String
  max_attendees : Nat
  deriving DecidableEq, Repr

namespace EventService

/-- EventService.create_event: persists the payload with the given
organizer as owner.  The status field is not in the insert dict, so the
column default SCHEDULED from app/vo/event.py applies.  No comparison of
start_time and end_time occurs anywhere on this path (neither here nor
in the DTO). -/
def create_event (db : DB) (event_in : EventCreate) (organizer_id : Nat) :
    DB × AppResponse Event :=
  let (db', event) := EventDAO.create db
    { id := 0
      name := event_in.name
      description := event_in.description
      start_time := event_in.start_time
      end_time := event_in.end_time
      location := event_in.location
      max_attendees := event_in.max_attendees
      status := .SCHEDULED
      organizer_id := organizer_id }
  (db', .success 201 "Event created successfully" event)

/-- EventService._is_valid_status_transition: the transition table. -/
def is_valid_status_transition (current_status new_status : EventStatus) : Bool :=
  let targets : List EventStatus :=
    match current_status with
    | .SCHEDULED => [.ONGOING, .CANCELLED]
    | .ONGOING => [.COMPLETED, .CANCELLED]
    | .COMPLETED => []
    | .CANCELLED => []
  targets.contains new_status

/-- EventService.update_event_status: existence, ownership, transition
check against the table, then EventDAO.update_status. -/
def update_event_status (db : DB) (event_id : Nat)
    (new_status : EventStatus) (user_id : Nat) : DB × AppResponse Event :=
  match EventDAO.get db event_id with
  | none => (db, .error 404 "Event not found")
  | some event =>
      if event.organizer_id != user_id then
        (db, .error 403 "You are not authorized to update this event")
      else if !(is_valid_status_transition event.status new_status) then
        (db, .error 400 ("Invalid status transition from " ++
          event.status.value ++ " to " ++ new_status.value))
      else
        match EventDAO.update_status db event_id new_status with
        | (db', some updated) =>
            (db', .success 200 "Event status updated successfully" updated)
        | (db', none) => (db', .error 500 "Failed to update event status")

/-- Condition of EventService._update_event_status_based_on_time: status
neither COMPLETED nor CANCELLED and end_time strictly before the current
time (end_time is a non-nullable datetime, so its Python truthiness test
always passes). -/
def auto_complete_fires (event : Event) (now : Int) : Bool :=
  (event.status != .COMPLETED && event.status != .CANCELLED) &&
    event.end_time < now

/-- EventService._update_event_status_based_on_time: the read-triggered
auto-transition to COMPLETED, as an update of the store. -/
def update_event_status_based_on_time (db : DB) (event : Event) (now : Int) : DB :=
  if auto_complete_fires event now then
    (EventDAO.update_status db event.id .COMPLETED).1
  else db

/-- The ORM object the read paths serialize after the auto-transition
ran: the same object, mutated to COMPLETED exactly when the transition
fired. -/
def refreshed (event : Event) (now : Int) : Event :=
  if auto_complete_fires event now then { event with status := .COMPLETED }
  else event

/-- EventService.get_event: fetch by id, apply the time-based
auto-transition as a side effect, serialize the (possibly mutated)
object. -/
def get_event (db : DB) (event_id : Nat) (now : Int) :
    DB × AppResponse Event :=
  match EventDAO.get db event_id with
  | none => (db, .error 404 "Event not found")
  | some event =>
      let db' := update_event_status_based_on_time db event now
      (db', .success 200 "Event retrieved successfully" (refreshed event now))

/-- EventService.get_events: status filter wins over the date range
(Python truthiness on the optionals), else the date range when both
bounds are given, else all; offset/limit pagination; then the
auto-transition applied to every selected event before serializing. -/
def get_events (db : DB) (skip limit : Nat) (status : Option EventStatus)
    (start_date end_date : Option Int) (now : Int) :
    DB × AppResponse (List Event) :=
  let events : List Event :=
    match status with
    | some s => ((db.events.filter (fun e => e.status == s)).drop skip).take limit
    | none =>
        match start_date, end_date with
        | some sd, some ed =>
            ((db.events.filter (fun e => sd ≤ e.start_time && e.end_time ≤ ed)).drop skip).take limit
        | _, _ => (db.events.drop skip).take limit
  let db' := events.foldl (fun d e => update_event_status_based_on_time d e now) db
  (db', .success 200 "Events retrieved successfully"
    (events.map (fun e => refreshed e now)))

/-- Python str.upper on one character of the ASCII range (every status
literal the code compares is ASCII). -/
def upperChar (c : Char) : Char :=
  if 'a' ≤ c && c ≤ 'z' then Char.ofNat (c.toNat - 32) else c

/-- Python str.upper, as used on the status string in
EventService.update_event. -/
def upper (s : String) : String := ⟨s.data.map upperChar⟩

/-- Value of valid_statuses in EventService.update_event: the stored
enum values, with CANCELED spelled as in app/common/enums.py. -/
def valid_statuses : List String :=
  ["SCHEDULED", "ONGOING", "COMPLETED", "CANCELED"]

/-- The status value found in the partial update dict of
EventService.update_event: an EventStatus member, a raw string, or a
value of any other type. -/
inductive StatusValue where
  | enum (s : EventStatus)
  | str (s : String)
  | other
  deriving DecidableEq, Repr

/-- The status-normalization block of EventService.update_event (lines
83-105): an EventStatus member is replaced by its stored value; a string
is uppercased and accepted only if the result is in valid_statuses; any
other type is rejected. -/
def update_event_normalize_status : StatusValue → Except String String
  | .enum s => .ok s.value
  | .str s =>
      if valid_statuses.contains (upper s) then .ok (upper s)
      else .error "Invalid status value. Must be one of valid_statuses"
  | .other => .error "Invalid status value type"

end EventService

/-! ### Token issuance (app/service/auth.py, app/core/config.py) -/

/-- Settings.ACCESS_TOKEN_EXPIRE_MINUTES from app/core/config.py. -/
def ACCESS_TOKEN_EXPIRE_MINUTES : Nat := 30

/-- Payload a token encodes: the identity claim plus the absolute expiry
(seconds).  jwt.encode itself is the excluded signing primitive; the
claims concern only what the token encodes. -/
structure TokenPayload where
  sub : String
  exp : Int
  deriving DecidableEq, Repr

/-- create_access_token from app/service/auth.py: the expiry is now plus
the given delta when one is given and truthy (a zero timedelta is falsy
in Python), and now plus a hardcoded timedelta of 15 minutes
otherwise. -/
def create_access_token (sub : String) (expires_delta : Option Int)
    (now : Int) : TokenPayload :=
  let expire :=
    match expires_delta with
    | some d => if d != 0 then now + d else now + 15 * 60
    | none => now + 15 * 60
  { sub := sub, exp := expire }

/-- Extract the payload of a response, with a default for errors. -/
def AppResponse.getData {α : Type} (d : α) : AppResponse α → α
  | .success _ _ x => x
  | .error _ _ => d

/-! ### Concrete stores used as inputs of the claim checks -/

/-- A scheduled event with a given id, capacity and organizer 7, ending
at time 10. -/
def sampleEvent (i : Nat) (st : EventStatus) (cap : Nat) : Event :=
  { id := i, name := "Tech Meetup", description := none, start_time := 0,
    end_time := 10, location := "Hall A", max_attendees := cap,
    status := st, organizer_id := 7 }

/-- An unchecked registration of email em to event ev. -/
def sampleAttendee (i : Nat) (ev : Nat) (em : String) : Attendee :=
  { id := i, event_id := ev, email := em, first_name := "Ada",
    last_name := "L", phone_number := none, check_in_status := false }

/-- Store for the capacity check: one SCHEDULED event with
max_attendees = 101 that already holds exactly 101 registrations. -/
def capacityDB : DB :=
  { events := [sampleEvent 1 .SCHEDULED 101]
    attendees := (List.range 101).map
      (fun i => sampleAttendee (i + 1) 1 ("u" ++ toString (i + 1))) }

/-- Store for the duplicate check: two open events and no registrations
yet. -/
def twoEventsDB : DB :=
  { events := [sampleEvent 1 .SCHEDULED 10, sampleEvent 2 .SCHEDULED 10]
    attendees := [] }

/-- Store for the bulk check-in check: one ONGOING event with capacity
200 holding 101 unchecked registrations u1 .. u101. -/
def bulkDB : DB :=
  { events := [sampleEvent 1 .ONGOING 200]
    attendees := (List.range 101).map
      (fun i => sampleAttendee (i + 1) 1 ("u" ++ toString (i + 1))) }

/-- Store for the transition-table witness: one SCHEDULED event owned by
user 7. -/
def transitionDB : DB :=
  { events := [sampleEvent 1 .SCHEDULED 50], attendees := [] }

/-- Store for the auto-completion witness: one SCHEDULED event whose
end_time 10 lies before the read time 100 used in the witness. -/
def autoCompleteDB : DB :=
  { events := [sampleEvent 1 .SCHEDULED 50], attendees := [] }

/-- Store for the check-in witness: one ONGOING event and one unchecked
registration. -/
def checkInDB : DB :=
  { events := [sampleEvent 1 .ONGOING 50]
    attendees := [sampleAttendee 1 1 "ada@example.com"] }

/-- The four enum literals as the claim about status normalization
spells them (spec wording, member names of the enum, CANCELLED with a
double L). -/
def spec_claimed_status_literals : List String :=
  ["SCHEDULED", "ONGOING", "COMPLETED", "CANCELLED"]

end EventMgmt

open EventMgmt

/-! ### Helper lemmas about the store -/

theorem head?_filter_pred {α : Type} (p : α → Bool) (l : List α) (a : α)
    (h : (l.filter p).head? = some a) : p a = true := by
  induction l with
  | nil => simp at h
  | cons x l ih =>
      by_cases hx : p x
      · rw [List.filter_cons_of_pos hx] at h
        simp at h
        rw [← h]
        exact hx
      · rw [List.filter_cons_of_neg (by simp [hx])] at h
        exact ih h

theorem filter_map_replace_eq {α : Type} (q : α → Bool) (r : α) (l : List α)
    (hr : q r = true) :
    (l.map (fun x => if q x then r else x)).filter q =
      (l.filter q).map (fun _ => r) := by
  induction l with
  | nil => rfl
  | cons x l ih =>
      by_cases hx : q x
      · simp only [List.map_cons, hx, if_true,
          List.filter_cons_of_pos hr, List.filter_cons_of_pos hx,
          List.map_cons, ih]
      · simp only [List.map_cons, hx, if_false, Bool.false_eq_true,
          List.filter_cons_of_neg (by simp [hx] : ¬ q x = true), ih]

theorem head?_filter_map_replace {α : Type} (q : α → Bool) (r : α)
    (l : List α) (a : α) (hr : q r = true)
    (h : (l.filter q).head? = some a) :
    ((l.map (fun x => if q x then r else x)).filter q).head? = some r := by
  rw [filter_map_replace_eq q r l hr, List.head?_map, h]
  rfl

theorem filter_map_replace_other {α : Type} (q w : α → Bool) (r : α)
    (l : List α) (hr : w r = false)
    (hqw : ∀ x, q x = true → w x = false) :
    (l.map (fun x => if q x then r else x)).filter w = l.filter w := by
  induction l with
  | nil => rfl
  | cons x l ih =>
      by_cases hx : q x
      · rw [List.map_cons]
        simp only [hx, if_true]
        rw [List.filter_cons_of_neg (by simp [hr]),
          List.filter_cons_of_neg (by simp [hqw x hx]), ih]
      · rw [List.map_cons]
        simp only [hx, if_false, Bool.false_eq_true]
        by_cases hw : w x
        · rw [List.filter_cons_of_pos hw, List.filter_cons_of_pos hw, ih]
        · rw [List.filter_cons_of_neg (by simp [hw]),
            List.filter_cons_of_neg (by simp [hw]), ih]

theorem auto_update_preserves_other_rows (d : DB) (x : Event) (now : Int)
    (k : Nat) (hne : (x.id == k) = false) :
    (EventService.update_event_status_based_on_time d x now).events.filter
        (fun y => y.id == k) =
      d.events.filter (fun y => y.id == k) := by
  unfold EventService.update_event_status_based_on_time
  by_cases hf : EventService.auto_complete_fires x now
  · rw [if_pos hf]
    unfold EventDAO.update_status
    cases hg : EventDAO.get_by_id d x.id with
    | none => rfl
    | some y =>
        have hgf : (d.events.filter (fun z => z.id == x.id)).head? = some y := hg
        have hy : y.id = x.id :=
          eq_of_beq (head?_filter_pred (fun z : Event => z.id == x.id) d.events y hgf)
        dsimp only
        apply filter_map_replace_other
        · show (y.id == k) = false
          rw [hy]
          exact hne
        · intro z hz
          rw [eq_of_beq hz]
          exact hne
  · rw [if_neg hf]

theorem auto_fold_preserves_other_rows (now : Int) (k : Nat) :
    ∀ (L : List Event) (d : DB), (∀ x ∈ L, (x.id == k) = false) →
      ((L.foldl (fun acc ev => EventService.update_event_status_based_on_time acc ev now) d).events.filter
          (fun y => y.id == k)) =
        d.events.filter (fun y => y.id == k)
  | [], _, _ => rfl
  | x :: L, d, h => by
      rw [List.foldl_cons,
        auto_fold_preserves_other_rows now k L _
          (fun z hz => h z (List.mem_cons_of_mem x hz)),
        auto_update_preserves_other_rows d x now k (h x (List.mem_cons_self x L))]

theorem auto_fold_completes_member (now : Int) (e : Event)
    (L₁ L₂ : List Event) (d : DB)
    (h₁ : ∀ x ∈ L₁, (x.id == e.id) = false)
    (h₂ : ∀ x ∈ L₂, (x.id == e.id) = false)
    (hget : (d.events.filter (fun y => y.id == e.id)).head? = some e)
    (hfire : EventService.auto_complete_fires e now = true) :
    (((L₁ ++ e :: L₂).foldl
        (fun acc ev => EventService.update_event_status_based_on_time acc ev now) d).events.filter
          (fun y => y.id == e.id)).head? =
      some { e with status := EventStatus.COMPLETED } := by
  rw [List.foldl_append, List.foldl_cons,
    auto_fold_preserves_other_rows now e.id L₂ _ h₂]
  have hget₁ : ((L₁.foldl
      (fun acc ev => EventService.update_event_status_based_on_time acc ev now) d).events.filter
        (fun y => y.id == e.id)).head? = some e := by
    rw [auto_fold_preserves_other_rows now e.id L₁ d h₁]
    exact hget
  generalize hD : L₁.foldl
      (fun acc ev => EventService.update_event_status_based_on_time acc ev now) d = d₁ at hget₁ ⊢
  unfold EventService.update_event_status_based_on_time
  rw [if_pos hfire]
  unfold EventDAO.update_status
  rw [show EventDAO.get_by_id d₁ e.id = some e from hget₁]
  dsimp only
  exact head?_filter_map_replace (fun y : Event => y.id == e.id)
    { e with status := EventStatus.COMPLETED } d₁.events e (by simp) hget₁

/-! ### Claim checks -/

/-- C1: the claim says that for an event at max_attendees = N holding
exactly N registrations the next registration fails EventFull for every
positive N including N greater than 100.  The code computes the current
count through AttendeeDAO.get_by_event with the query default limit=100,
so for N = 101 the count is capped at 100, the comparison 100 >= 101
fails, and the registration is accepted: the store below holds exactly
101 registrations for the event with max_attendees = 101 and the next
registration nevertheless succeeds and inserts a 102nd row. -/
theorem C1_register_succeeds_beyond_capacity_101 :
    (capacityDB.attendees.filter (fun a => a.event_id == 1)).length = 101 ∧
    EventDAO.get capacityDB 1 = some (sampleEvent 1 .SCHEDULED 101) ∧
    (sampleEvent 1 .SCHEDULED 101).max_attendees = 101 ∧
    (AttendeeService.register_attendee capacityDB
        ⟨1, "new@example.com", "Ada", "L", none⟩).2.isSuccess = true ∧
    ((AttendeeService.register_attendee capacityDB
        ⟨1, "new@example.com", "Ada", "L", none⟩).1.attendees.filter
          (fun a => a.event_id == 1)).length = 102 := by
  decide

/-- C2: the claim says register(e, A) ok, register(e, B) ok,
register(e, B) again must fail Duplicate.  The duplicate check compares
only the FIRST stored row carrying the email (AttendeeDAO.get_by_email),
which after the first call is the registration for event 1, so the
repeated registration for event 2 passes the check and succeeds,
leaving two rows with the pair (e, 2) in the store. -/
theorem C2_same_event_reregistration_accepted :
    (AttendeeService.register_attendee twoEventsDB
        ⟨1, "e@example.com", "Ada", "L", none⟩).2.isSuccess = true ∧
    (AttendeeService.register_attendee
        (AttendeeService.register_attendee twoEventsDB
          ⟨1, "e@example.com", "Ada", "L", none⟩).1
        ⟨2, "e@example.com", "Ada", "L", none⟩).2.isSuccess = true ∧
    (AttendeeService.register_attendee
        (AttendeeService.register_attendee
          (AttendeeService.register_attendee twoEventsDB
            ⟨1, "e@example.com", "Ada", "L", none⟩).1
          ⟨2, "e@example.com", "Ada", "L", none⟩).1
        ⟨2, "e@example.com", "Ada", "L", none⟩).2.isSuccess = true ∧
    ((AttendeeService.register_attendee
        (AttendeeService.register_attendee
          (AttendeeService.register_attendee twoEventsDB
            ⟨1, "e@example.com", "Ada", "L", none⟩).1
          ⟨2, "e@example.com", "Ada", "L", none⟩).1
        ⟨2, "e@example.com", "Ada", "L", none⟩).1.attendees.filter
          (fun a => a.event_id == 2 && a.email == "e@example.com")).length = 2 := by
  decide

/-- C3: the claim says create validates start_time < end_time and
rejects the creation otherwise.  Neither EventService.create_event nor
the EventCreate DTO compares the two fields, so a payload with
start_time = 2 and end_time = 1 is persisted successfully (with status
SCHEDULED and the given organizer, the part of the claim the code does
satisfy). -/
theorem C3_create_accepts_start_after_end :
    (EventService.create_event ⟨[], []⟩ ⟨"N", none, 2, 1, "L", 5⟩ 7).2 =
      .success 201 "Event created successfully"
        { id := 1, name := "N", description := none, start_time := 2,
          end_time := 1, location := "L", max_attendees := 5,
          status := .SCHEDULED, organizer_id := 7 } ∧
    (EventService.create_event ⟨[], []⟩ ⟨"N", none, 2, 1, "L", 5⟩ 7).1.events =
      [{ id := 1, name := "N", description := none, start_time := 2,
         end_time := 1, location := "L", max_attendees := 5,
         status := .SCHEDULED, organizer_id := 7 }] := by
  decide

/-- C4: with the owning organizer as requester, update_event_status
persists and returns the new status for every (from, to) pair in the
transition table, and for every pair outside the table returns the
InvalidTransition error carrying the attempted pair and leaves the
store untouched. -/
theorem C4_update_status_follows_transition_table
    (db : DB) (eid uid : Nat) (e : Event) (s : EventStatus)
    (hget : EventDAO.get db eid = some e)
    (howner : e.organizer_id = uid) :
    (EventService.is_valid_status_transition e.status s = true →
      (EventService.update_event_status db eid s uid).2 =
        .success 200 "Event status updated successfully" { e with status := s } ∧
      EventDAO.get (EventService.update_event_status db eid s uid).1 eid =
        some { e with status := s }) ∧
    (EventService.is_valid_status_transition e.status s = false →
      EventService.update_event_status db eid s uid =
        (db, .error 400 ("Invalid status transition from " ++
          e.status.value ++ " to " ++ s.value))) := by
  have hget' : EventDAO.get_by_id db eid = some e := hget
  have hfilter : (db.events.filter (fun x => x.id == eid)).head? = some e := hget'
  have hid : (e.id == eid) = true :=
    head?_filter_pred (fun x : Event => x.id == eid) db.events e hfilter
  have hown : (e.organizer_id != uid) = false := by simp [howner]
  constructor
  · intro hv
    unfold EventService.update_event_status
    rw [hget]
    dsimp only
    simp only [hown, Bool.false_eq_true, if_false, hv, Bool.not_true]
    unfold EventDAO.update_status
    rw [hget']
    dsimp only
    refine ⟨rfl, ?_⟩
    unfold EventDAO.get EventDAO.get_by_id
    dsimp only
    exact head?_filter_map_replace (fun x => x.id == eid)
      { e with status := s } db.events e hid hfilter
  · intro hv
    unfold EventService.update_event_status
    rw [hget]
    dsimp only
    simp only [hown, Bool.false_eq_true, if_false, hv, Bool.not_false, if_true]

/-- C4 witness: on a store holding one SCHEDULED event owned by user 7,
the transition to ONGOING (in the table) persists and returns the new
status, and the transition to COMPLETED (not in the table from
SCHEDULED) is the InvalidTransition error leaving the store
unchanged. -/
theorem C4_update_status_follows_transition_table_witness :
    (EventService.is_valid_status_transition
        (sampleEvent 1 .SCHEDULED 50).status .ONGOING = true →
      (EventService.update_event_status transitionDB 1 .ONGOING 7).2 =
        .success 200 "Event status updated successfully"
          { sampleEvent 1 .SCHEDULED 50 with status := .ONGOING } ∧
      EventDAO.get (EventService.update_event_status transitionDB 1 .ONGOING 7).1 1 =
        some { sampleEvent 1 .SCHEDULED 50 with status := .ONGOING }) ∧
    (EventService.is_valid_status_transition
        (sampleEvent 1 .SCHEDULED 50).status .ONGOING = false →
      EventService.update_event_status transitionDB 1 .ONGOING 7 =
        (transitionDB, .error 400 ("Invalid status transition from " ++
          (sampleEvent 1 .SCHEDULED 50).status.value ++ " to "
            ++ EventStatus.ONGOING.value))) :=
  C4_update_status_follows_transition_table transitionDB 1 7
    (sampleEvent 1 .SCHEDULED 50) .ONGOING (by decide) (by decide)

/-- C7: the claim says every email with no attendee registered for the
event yields a not-found error while every registered unchecked attendee
is checked in.  The snapshot of event attendees is fetched through
AttendeeDAO.get_by_event with the query default limit=100, so in a store
holding 101 registrations the attendee u101 (registered and unchecked)
is outside the snapshot: bulk check-in over the single email u101
reports it not found, checks in nobody, and leaves the store
unchanged. -/
theorem C7_bulk_reports_registered_attendee_not_found :
    bulkDB.attendees.filter (fun a => a.event_id == 1 && a.email == "u101") =
      [sampleAttendee 101 1 "u101"] ∧
    (sampleAttendee 101 1 "u101").check_in_status = false ∧
    EventDAO.get bulkDB 1 = some (sampleEvent 1 .ONGOING 200) ∧
    (AttendeeService.bulk_check_in_attendees bulkDB 1 ["u101"]).2 =
      .success 200
        "Bulk check-in completed with 1 errors: Attendee with email u101 not found"
        [] ∧
    (AttendeeService.bulk_check_in_attendees bulkDB 1 ["u101"]).1 = bulkDB := by
  decide

/-- C5: a single read of an event whose end_time lies before the current
time and whose stored status is SCHEDULED or ONGOING persists the
COMPLETED status and returns the record as COMPLETED; a repeated single
read changes nothing and observes COMPLETED; and a list read whose
selection (first page, no filters) contains the event persists COMPLETED
for it and serializes it as COMPLETED, assuming the primary keys in the
store are unique. -/
theorem C5_reads_auto_complete_past_events
    (db : DB) (eid : Nat) (e : Event) (now : Int)
    (hget : EventDAO.get db eid = some e)
    (hpast : e.end_time < now)
    (hst : e.status = .SCHEDULED ∨ e.status = .ONGOING) :
    (EventService.get_event db eid now).2 =
      .success 200 "Event retrieved successfully" { e with status := .COMPLETED } ∧
    EventDAO.get (EventService.get_event db eid now).1 eid =
      some { e with status := .COMPLETED } ∧
    EventService.get_event (EventService.get_event db eid now).1 eid now =
      ((EventService.get_event db eid now).1,
        .success 200 "Event retrieved successfully" { e with status := .COMPLETED }) ∧
    ((db.events.map (fun x => x.id)).Nodup → e ∈ db.events.take 100 →
      EventDAO.get (EventService.get_events db 0 100 none none none now).1 eid =
        some { e with status := .COMPLETED } ∧
      { e with status := .COMPLETED } ∈
        (EventService.get_events db 0 100 none none none now).2.getData []) := by
  have hget' : (db.events.filter (fun x => x.id == eid)).head? = some e := hget
  have heid : e.id = eid :=
    eq_of_beq (head?_filter_pred (fun x : Event => x.id == eid) db.events e hget')
  subst heid
  have hfire : EventService.auto_complete_fires e now = true := by
    unfold EventService.auto_complete_fires
    rcases hst with h | h <;> rw [h] <;> simp [hpast]
  have hf2 : EventService.auto_complete_fires { e with status := EventStatus.COMPLETED } now = false := by
    unfold EventService.auto_complete_fires
    rfl
  have hupd : EventDAO.update_status db e.id EventStatus.COMPLETED = ({ db with events := db.events.map (fun x => if x.id == e.id then { e with status := EventStatus.COMPLETED } else x) }, some { e with status := EventStatus.COMPLETED }) := by
    unfold EventDAO.update_status
    rw [show EventDAO.get_by_id db e.id = some e from hget']
  have h1 : EventService.get_event db e.id now = ({ db with events := db.events.map (fun x => if x.id == e.id then { e with status := EventStatus.COMPLETED } else x) }, .success 200 "Event retrieved successfully" { e with status := EventStatus.COMPLETED }) := by
    unfold EventService.get_event
    rw [hget]
    dsimp only
    unfold EventService.update_event_status_based_on_time EventService.refreshed
    rw [if_pos hfire, if_pos hfire, hupd]
  have hget₂ : ((db.events.map (fun x => if x.id == e.id then { e with status := EventStatus.COMPLETED } else x)).filter (fun x => x.id == e.id)).head? = some { e with status := EventStatus.COMPLETED } :=
    head?_filter_map_replace (fun x : Event => x.id == e.id)
      { e with status := EventStatus.COMPLETED } db.events e (by simp) hget'
  refine ⟨by rw [h1], ?_, ?_, ?_⟩
  · rw [h1]
    exact hget₂
  · rw [h1]
    unfold EventService.get_event
    rw [show EventDAO.get { db with events := db.events.map (fun x => if x.id == e.id then { e with status := EventStatus.COMPLETED } else x) } e.id = some { e with status := EventStatus.COMPLETED } from hget₂]
    dsimp only
    unfold EventService.update_event_status_based_on_time EventService.refreshed
    rw [if_neg (by rw [hf2]; exact Bool.false_ne_true),
      if_neg (by rw [hf2]; exact Bool.false_ne_true)]
  · intro hnodup hmem
    have hsel : EventService.get_events db 0 100 none none none now = ((db.events.take 100).foldl (fun acc ev => EventService.update_event_status_based_on_time acc ev now) db, .success 200 "Events retrieved successfully" ((db.events.take 100).map (fun x => EventService.refreshed x now))) := by
      unfold EventService.get_events
      dsimp only
      rw [List.drop_zero]
    have hnd : ((db.events.take 100).map (fun x => x.id)).Nodup :=
      List.Nodup.sublist (List.Sublist.map (fun x => x.id) (List.take_sublist 100 db.events)) hnodup
    obtain ⟨L₁, L₂, hL⟩ := List.append_of_mem hmem
    rw [hL, List.map_append, List.map_cons] at hnd
    have hnotmem : e.id ∉ L₁.map (fun x => x.id) ++ L₂.map (fun x => x.id) :=
      (List.nodup_cons.mp (List.nodup_middle.mp hnd)).1
    have h₁ : ∀ x ∈ L₁, (x.id == e.id) = false := by
      intro x hx
      have hne : x.id ≠ e.id := by
        intro hcontra
        exact hnotmem (List.mem_append_left _
          (hcontra ▸ List.mem_map_of_mem (fun z => z.id) hx))
      simpa using hne
    have h₂ : ∀ x ∈ L₂, (x.id == e.id) = false := by
      intro x hx
      have hne : x.id ≠ e.id := by
        intro hcontra
        exact hnotmem (List.mem_append_right _
          (hcontra ▸ List.mem_map_of_mem (fun z => z.id) hx))
      simpa using hne
    constructor
    · rw [hsel]
      dsimp only
      show ((((db.events.take 100).foldl (fun acc ev => EventService.update_event_status_based_on_time acc ev now) db).events.filter (fun y => y.id == e.id)).head?) = some { e with status := EventStatus.COMPLETED }
      rw [hL]
      exact auto_fold_completes_member now e L₁ L₂ db h₁ h₂ hget' hfire
    · rw [hsel]
      dsimp only [AppResponse.getData]
      have hm := List.mem_map_of_mem (fun x => EventService.refreshed x now) hmem
      dsimp only at hm
      rw [show EventService.refreshed e now = { e with status := EventStatus.COMPLETED } from by
        unfold EventService.refreshed
        rw [if_pos hfire]] at hm
      exact hm

/-- C5 witness: on a store with one SCHEDULED event ending at time 10,
a read at time 100 persists and returns COMPLETED, the repeated read
changes nothing, and the list read does the same. -/
theorem C5_reads_auto_complete_past_events_witness :
    (EventService.get_event autoCompleteDB 1 100).2 =
      .success 200 "Event retrieved successfully"
        { sampleEvent 1 .SCHEDULED 50 with status := .COMPLETED } ∧
    EventDAO.get (EventService.get_event autoCompleteDB 1 100).1 1 =
      some { sampleEvent 1 .SCHEDULED 50 with status := .COMPLETED } ∧
    EventService.get_event (EventService.get_event autoCompleteDB 1 100).1 1 100 =
      ((EventService.get_event autoCompleteDB 1 100).1,
        .success 200 "Event retrieved successfully"
          { sampleEvent 1 .SCHEDULED 50 with status := .COMPLETED }) ∧
    ((autoCompleteDB.events.map (fun x => x.id)).Nodup →
      sampleEvent 1 .SCHEDULED 50 ∈ autoCompleteDB.events.take 100 →
      EventDAO.get (EventService.get_events autoCompleteDB 0 100 none none none 100).1 1 =
        some { sampleEvent 1 .SCHEDULED 50 with status := .COMPLETED } ∧
      { sampleEvent 1 .SCHEDULED 50 with status := .COMPLETED } ∈
        (EventService.get_events autoCompleteDB 0 100 none none none 100).2.getData []) :=
  C5_reads_auto_complete_past_events autoCompleteDB 1
    (sampleEvent 1 .SCHEDULED 50) 100 (by decide) (by decide) (Or.inl rfl)

/-- C6: check_in_attendee succeeds exactly when the attendee exists, its
event exists, the event is ONGOING and the attendee is not yet checked
in, in which case it flips check_in_status to true in the store and
returns the updated record; otherwise it fails with, in precedence
order, attendee-not-found, event-not-found, event-not-ongoing (for
every status other than ONGOING), or already-checked-in — in particular
a second call for the same attendee fails already-checked-in. -/
theorem C6_check_in_characterization (db : DB) (aid : Nat) :
    (AttendeeDAO.get db aid = none →
      AttendeeService.check_in_attendee db aid =
        (db, .error { status_code := 404, detail := "Attendee not found" })) ∧
    (∀ a, AttendeeDAO.get db aid = some a →
      (EventDAO.get db a.event_id = none →
        AttendeeService.check_in_attendee db aid =
          (db, .error { status_code := 404, detail := "Event not found" })) ∧
      (∀ ev, EventDAO.get db a.event_id = some ev →
        (ev.status ≠ .ONGOING →
          AttendeeService.check_in_attendee db aid =
            (db, .error { status_code := 400, detail := "Event is not ongoing" })) ∧
        (ev.status = .ONGOING → a.check_in_status = true →
          AttendeeService.check_in_attendee db aid =
            (db, .error { status_code := 400, detail := "Attendee already checked in" })) ∧
        (ev.status = .ONGOING → a.check_in_status = false →
          (AttendeeService.check_in_attendee db aid).2 =
            .ok (some { a with check_in_status := true }) ∧
          AttendeeDAO.get (AttendeeService.check_in_attendee db aid).1 aid =
            some { a with check_in_status := true } ∧
          AttendeeService.check_in_attendee
              (AttendeeService.check_in_attendee db aid).1 aid =
            ((AttendeeService.check_in_attendee db aid).1,
              .error { status_code := 400, detail := "Attendee already checked in" })))) := by
  constructor
  · intro hnone
    unfold AttendeeService.check_in_attendee
    rw [hnone]
  · intro a ha
    have ha' : AttendeeDAO.get_by_id db aid = some a := ha
    have hafilter : (db.attendees.filter (fun x => x.id == aid)).head? = some a := ha'
    have haid : (a.id == aid) = true :=
      head?_filter_pred (fun x : Attendee => x.id == aid) db.attendees a hafilter
    constructor
    · intro hev
      unfold AttendeeService.check_in_attendee
      rw [ha]
      dsimp only
      rw [hev]
    · intro ev hev
      refine ⟨?_, ?_, ?_⟩
      · intro hng
        have hng' : (ev.status != .ONGOING) = true := by
          cases hs : ev.status <;> first | rfl | exact absurd hs hng
        unfold AttendeeService.check_in_attendee
        rw [ha]
        dsimp only
        rw [hev]
        dsimp only
        rw [if_pos hng']
      · intro hon hchk
        have hng' : (ev.status != .ONGOING) = false := by rw [hon]; rfl
        unfold AttendeeService.check_in_attendee
        rw [ha]
        dsimp only
        rw [hev]
        dsimp only
        rw [if_neg (by rw [hng']; exact Bool.false_ne_true)]
        rw [if_pos hchk]
      · intro hon hchk
        have hng' : (ev.status != .ONGOING) = false := by rw [hon]; rfl
        have hres : AttendeeService.check_in_attendee db aid = ({ db with attendees := db.attendees.map (fun x => if x.id == aid then { a with check_in_status := true } else x) }, .ok (some { a with check_in_status := true })) := by
          unfold AttendeeService.check_in_attendee
          rw [ha]
          dsimp only
          rw [hev]
          dsimp only
          rw [if_neg (by rw [hng']; exact Bool.false_ne_true)]
          rw [if_neg (by rw [hchk]; exact Bool.false_ne_true)]
          unfold AttendeeDAO.check_in_attendee
          rw [ha']
        rw [hres]
        have hget₂raw : ((db.attendees.map (fun x => if x.id == aid then { a with check_in_status := true } else x)).filter (fun x => x.id == aid)).head? = some { a with check_in_status := true } :=
          head?_filter_map_replace (fun x : Attendee => x.id == aid)
            { a with check_in_status := true } db.attendees a haid hafilter
        have hget₂ : AttendeeDAO.get_by_id { db with attendees := db.attendees.map (fun x => if x.id == aid then { a with check_in_status := true } else x) } aid = some { a with check_in_status := true } := hget₂raw
        refine ⟨rfl, hget₂, ?_⟩
        unfold AttendeeService.check_in_attendee
        rw [show AttendeeDAO.get { db with attendees := db.attendees.map (fun x => if x.id == aid then { a with check_in_status := true } else x) } aid = some { a with check_in_status := true } from hget₂]
        dsimp only
        rw [show EventDAO.get { db with attendees := db.attendees.map (fun x => if x.id == aid then { a with check_in_status := true } else x) } (Attendee.event_id { a with check_in_status := true }) = some ev from hev]
        dsimp only
        rw [if_neg (by rw [hng']; exact Bool.false_ne_true)]
        rw [if_pos rfl]

/-- C6 witness: on a store with one ONGOING event and one unchecked
registration, the first check-in flips the flag and returns the updated
record, and the second call fails already-checked-in. -/
theorem C6_check_in_characterization_witness :
    (AttendeeService.check_in_attendee checkInDB 1).2 =
      .ok (some { sampleAttendee 1 1 "ada@example.com" with check_in_status := true }) ∧
    AttendeeDAO.get (AttendeeService.check_in_attendee checkInDB 1).1 1 =
      some { sampleAttendee 1 1 "ada@example.com" with check_in_status := true } ∧
    AttendeeService.check_in_attendee
        (AttendeeService.check_in_attendee checkInDB 1).1 1 =
      ((AttendeeService.check_in_attendee checkInDB 1).1,
        .error { status_code := 400, detail := "Attendee already checked in" }) :=
  ((((C6_check_in_characterization checkInDB 1).2
      (sampleAttendee 1 1 "ada@example.com") (by decide)).2
      (sampleEvent 1 .ONGOING 50) (by decide)).2.2) (by decide) (by decide)

/-- C8 counterexample: the claim says a status value equal to one of the
four enum literals SCHEDULED, ONGOING, COMPLETED, CANCELLED
(case-insensitively) is accepted.  CANCELLED is such a literal, yet the
normalization block rejects it, because the accepted set spells the
stored enum value CANCELED with a single L. -/
theorem C8_literal_cancelled_rejected :
    spec_claimed_status_literals.contains "CANCELLED" = true ∧
    EventService.upper "CANCELLED" = "CANCELLED" ∧
    EventService.update_event_normalize_status (.str "CANCELLED") =
      .error "Invalid status value. Must be one of valid_statuses" :=
  ⟨by decide, by decide, by rfl⟩

/-- C8 amended: a status string in the partial update is accepted
exactly when its uppercasing is one of the four STORED enum values
SCHEDULED, ONGOING, COMPLETED, CANCELED (single L, the value the
enum member CANCELLED carries), and the accepted value is the
uppercased string. -/
theorem C8_status_string_accepted_iff_stored_value (s : String) :
    ((EventService.update_event_normalize_status (.str s)).isOk = true ↔
      EventService.upper s ∈ EventService.valid_statuses) ∧
    ((EventService.update_event_normalize_status (.str s)).isOk = true →
      EventService.update_event_normalize_status (.str s) =
        .ok (EventService.upper s)) := by
  rw [show EventService.update_event_normalize_status (.str s) =
      (if EventService.valid_statuses.contains (EventService.upper s) then
        Except.ok (EventService.upper s)
      else Except.error "Invalid status value. Must be one of valid_statuses")
    from rfl]
  by_cases h : EventService.valid_statuses.contains (EventService.upper s)
  · rw [if_pos h]
    exact ⟨⟨fun _ => List.elem_iff.mp h, fun _ => rfl⟩, fun _ => rfl⟩
  · rw [if_neg h]
    constructor
    · constructor
      · intro hok
        simp [Except.isOk, Except.toBool] at hok
      · intro hmem
        exact absurd (List.elem_iff.mpr hmem) h
    · intro hok
      simp [Except.isOk, Except.toBool] at hok

/-- C8 amended witness: the lowercase string canceled is accepted and
normalized to the stored value CANCELED. -/
theorem C8_status_string_accepted_iff_stored_value_witness :
    (EventService.update_event_normalize_status (.str "canceled")).isOk = true ∧
    EventService.update_event_normalize_status (.str "canceled") =
      .ok (EventService.upper "canceled") :=
  ⟨by decide,
    (C8_status_string_accepted_iff_stored_value "canceled").2 (by decide)⟩

/-- C9 counterexample: the claim says a token issued without an explicit
ttl encodes an absolute expiry of the current time plus the configured
30 minutes; at current time 0 the encoded expiry is 900 seconds, not
1800. -/
theorem C9_default_expiry_differs_from_configured_constant :
    (create_access_token "ada@example.com" none 0).exp ≠
      0 + (ACCESS_TOKEN_EXPIRE_MINUTES : Int) * 60 := by
  decide

/-- C9 amended: without an explicit ttl the encoded expiry is the
current time plus a hardcoded 15 minutes; the configured 30-minute
constant is not what this default uses. -/
theorem C9_default_expiry_is_now_plus_15_minutes (sub : String) (now : Int) :
    (create_access_token sub none now).exp = now + 15 * 60 ∧
    ACCESS_TOKEN_EXPIRE_MINUTES ≠ 15 :=
  ⟨rfl, by decide⟩

/-- C10: registration never consults the clock: for an event whose
end_time lies in the past but whose stored status is still SCHEDULED or
ONGOING, a registration that passes the duplicate check and the
capacity check (as the code implements them) succeeds, and the events
table is left entirely unchanged by the call. -/
theorem C10_register_ignores_time_and_keeps_event_rows
    (db : DB) (a_in : AttendeeCreate) (e : Event) (now : Int)
    (hget : EventDAO.get db a_in.event_id = some e)
    (hpast : e.end_time < now)
    (hst : e.status = .SCHEDULED ∨ e.status = .ONGOING)
    (hdup : ((AttendeeDAO.get_by_email db a_in.email).map
        (fun a => a.event_id == a_in.event_id)).getD false = false)
    (hcap : (AttendeeDAO.get_by_event db a_in.event_id 0 100).length <
      e.max_attendees) :
    (AttendeeService.register_attendee db a_in).2.isSuccess = true ∧
    (AttendeeService.register_attendee db a_in).1.events = db.events := by
  unfold AttendeeService.register_attendee
  rw [hget]
  have hopen : (e.status == EventStatus.COMPLETED ||
      e.status == EventStatus.CANCELLED) = false := by
    rcases hst with h | h <;> rw [h] <;> rfl
  simp only [hdup, hopen, Bool.false_eq_true, if_false,
    if_neg (Nat.not_le.mpr hcap)]
  exact ⟨rfl, rfl⟩

/-- C10 witness: on a store with one SCHEDULED event whose end_time 10
lies before the time 100, a fresh registration succeeds and the events
table is unchanged. -/
theorem C10_register_ignores_time_and_keeps_event_rows_witness :
    (AttendeeService.register_attendee transitionDB
        ⟨1, "new@example.com", "Ada", "L", none⟩).2.isSuccess = true ∧
    (AttendeeService.register_attendee transitionDB
        ⟨1, "new@example.com", "Ada", "L", none⟩).1.events = transitionDB.events :=
  C10_register_ignores_time_and_keeps_event_rows transitionDB
    ⟨1, "new@example.com", "Ada", "L", none⟩ (sampleEvent 1 .SCHEDULED 50) 100
    (by decide) (by decide) (Or.inl rfl) (by decide) (by decide)
